import Mathlib

/-!
Shallow embedding of `h1st/model_repository/model_repository.py`.

The Python module defines two classes:
* `ModelSerDe` — serializes/deserializes a composite model's `metrics`,
  `stats` and `model` properties into a scratch directory together with a
  `METAINFO.yaml` manifest;
* `ModelRepository` — archives that directory and stores it in a key/value
  blob store under `key(model, version)`, maintaining a `key(model, "latest")`
  alias object.

Python objects are embedded as follows: sub-model artifacts become the
`Artifact` inductive (an sklearn estimator, a keras model, Python `None`, or
an unrecognized object); the scratch directory becomes an association list
from relative paths to written blobs; exceptions become `Except String`;
machine state that the code mutates (the store, the model object, the set of
live scratch directories) is threaded explicitly.

The storage backends (`h1st.model_repository.storage.s3` / `.local`) are not
part of the available sources; the `Store` operations are modelled from the
spec's Blob Store contract (key→bytes / key→small-object with put, get that
fails when the key is absent, and delete), with a `failSet` of keys whose
writes fail, modelling backing-store I/O failures that the code propagates.
The archiver (`tarfile`) is likewise a black-box directory↔blob bundling pair.
-/

/-- A Python sub-model artifact as seen by `ModelSerDe._get_model_type`:
an sklearn estimator (content abstracted to a `Nat`), a keras model with
its weights, Python `None`, or an unrecognized object. -/
inductive Artifact where
  | sklearnModel (data : Nat)
  | kerasModel (weights : Nat)
  | none_
  | other (tag : Nat)
deriving DecidableEq

/-- The `model` property of a composite model: Python distinguishes
`type(model.model) == list`, `== dict`, and everything else (a single
artifact, `None` included). A `dict` is embedded as an association list,
preserving Python's insertion order. -/
inductive SubmodelPart where
  | single (a : Artifact)
  | list (l : List Artifact)
  | dict (kvs : List (String × Artifact))
deriving DecidableEq

/-- A composite H1ST model object.  `module_`/`className` give the fully
qualified type name used by `ModelRepository._get_key`; `metrics`, `stats`
and `model` are the optional properties walked by `ModelSerDe`
(`none` embeds `not hasattr(model, ...)`); the opaque dict contents of
`metrics`/`stats` are abstracted to a `Nat`. -/
structure PModel where
  module_ : String
  className : String
  metrics : Option Nat
  stats : Option Nat
  model : Option SubmodelPart
  version : Option String
deriving DecidableEq

/-- One `{model_type, model_path}` entry of the manifest's `models` field. -/
structure ModelEntry where
  model_type : String
  model_path : String
deriving DecidableEq

/-- The manifest's `models` field: an ordered list or a name-keyed mapping. -/
inductive ModelsField where
  | list (entries : List ModelEntry)
  | dict (entries : List (String × ModelEntry))
deriving DecidableEq

/-- The `METAINFO.yaml` manifest document: optional `metrics`/`stats`
relative paths and the optional `models` field. -/
structure MetaInfo where
  metrics : Option String
  stats : Option String
  models : Option ModelsField
deriving DecidableEq

/-- A file written into the scratch directory: `joblib.dump` of a
stats/metrics dict, `joblib.dump` of an sklearn model, keras
`save_weights` output, or the yaml manifest. -/
inductive Blob where
  | joblibD (d : Nat)
  | joblibM (a : Artifact)
  | weights (w : Nat)
  | meta (mi : MetaInfo)
deriving DecidableEq

/-- A scratch directory: relative path → blob, later writes in front. -/
abbrev Dir := List (String × Blob)

/-- First association for a path in a directory (later writes shadow
earlier ones, mirroring file overwrite). -/
def dirFind : Dir → String → Option Blob
  | [], _ => none
  | (k, b) :: rest, p => if k = p then some b else dirFind rest p

/-- First association for a key in a string-keyed association list. -/
def assocFind {α : Type} : List (String × α) → String → Option α
  | [], _ => none
  | (k, v) :: rest, s => if k = s then some v else assocFind rest s

/-- Python truthiness of the `model.model` attribute as used by
`org_model or <padding>` in `ModelSerDe.deserialize`: absent attribute and
`None` are falsy, a list/dict is truthy iff non-empty, any other single
object is truthy. -/
def pyTruthySub : Option SubmodelPart → Bool
  | none => false
  | some (.single .none_) => false
  | some (.single _) => true
  | some (.list l) => !l.isEmpty
  | some (.dict kvs) => !kvs.isEmpty

/-- Python `org_model[i]` with an integer index: succeeds only on a list
that is long enough; a dict raises `KeyError` for an absent (integer) key
and a non-subscriptable single object raises `TypeError`. -/
def pyGetIndex : SubmodelPart → Nat → Except String Artifact
  | .list l, i =>
    match l.get? i with
    | some a => .ok a
    | none => .error "IndexError"
  | .dict _, _ => .error "KeyError"
  | .single _, _ => .error "TypeError"

/-- Python `org_model[name]` with a string key: succeeds only on a dict
containing the key. -/
def pyGetKey : SubmodelPart → String → Except String Artifact
  | .dict kvs, k =>
    match assocFind kvs k with
    | some a => .ok a
    | none => .error "KeyError"
  | .list _, _ => .error "TypeError"
  | .single _, _ => .error "TypeError"

/-- The raw Python object read by `getattr(model, 'model', None)` when it is
passed as the existing-instance argument of `_deserialize_single_model`
(the single-entry manifest branch).  A composite container (list/dict)
passed there behaves as an object exposing neither the estimator nor the
`load_weights` interface, like `Artifact.other`. -/
def orgAsObject : Option SubmodelPart → Artifact
  | none => .none_
  | some (.single a) => a
  | some (.list _) => .other 0
  | some (.dict _) => .other 0

namespace ModelSerDe

def STATS_PATH : String := "stats.joblib"
def METRICS_PATH : String := "metrics.joblib"
def METAINFO_FILE : String := "METAINFO.yaml"

/-- `ModelSerDe._serialize_dict`: `joblib.dump(d, path + '/' + dict_file)`. -/
def _serialize_dict (d : Nat) (path : Dir) (dict_file : String) : Dir :=
  (dict_file, Blob.joblibD d) :: path

/-- `ModelSerDe._deserialize_dict`: `joblib.load(path + '/' + dict_file)`;
fails when the file is absent or does not hold a joblib-dumped dict. -/
def _deserialize_dict (path : Dir) (dict_file : String) : Except String Nat :=
  match dirFind path dict_file with
  | some (.joblibD d) => .ok d
  | _ => .error "joblib.load failed"

/-- `ModelSerDe._get_model_type`: sklearn estimators → `'sklearn'`, keras
models → `'tensorflow-keras'`, `None` → `'custom'`; any other object falls
through the `if` chain and the Python function implicitly returns `None`. -/
def _get_model_type : Artifact → Option String
  | .sklearnModel _ => some "sklearn"
  | .kerasModel _ => some "tensorflow-keras"
  | .none_ => some "custom"
  | .other _ => none

/-- `ModelSerDe._serialize_single_model`: dispatch on `_get_model_type`;
sklearn is joblib-dumped at `<name>.joblib`, keras saves its weights under
`<name>/weights`, `custom` (i.e. `None`) writes nothing, and an
unrecognized artifact raises `ValueError('Unsupported model!!!')`.
Returns `(model_type, model_path, updated directory)`. -/
def _serialize_single_model (a : Artifact) (path : Dir) (model_name : String) :
    Except String (String × String × Dir) :=
  match _get_model_type a with
  | some "sklearn" =>
    .ok ("sklearn", model_name ++ ".joblib",
      (model_name ++ ".joblib", Blob.joblibM a) :: path)
  | some "tensorflow-keras" =>
    match a with
    | .kerasModel w =>
      .ok ("tensorflow-keras", model_name,
        (model_name ++ "/weights", Blob.weights w) :: path)
    | _ => .error "AttributeError: save_weights"
  | some "custom" => .ok ("custom", model_name, path)
  | _ => .error "Unsupported model!!!"

/-- `ModelSerDe._deserialize_single_model`: sklearn reloads the joblib
file; keras calls `model.load_weights` on the existing instance (an
`AttributeError` when that instance is `None` or not a keras model);
`custom` always yields `None`; any other type tag falls through the `if`
chain and the original instance is returned unchanged. -/
def _deserialize_single_model (model : Artifact) (path : Dir)
    (model_type model_path : String) : Except String Artifact :=
  if model_type = "sklearn" then
    match dirFind path model_path with
    | some (.joblibM a) => .ok a
    | _ => .error "joblib.load failed"
  else if model_type = "tensorflow-keras" then
    match model with
    | .kerasModel _ =>
      match dirFind path (model_path ++ "/weights") with
      | some (.weights w) => .ok (.kerasModel w)
      | _ => .error "load_weights failed"
    | _ => .error "AttributeError: load_weights"
  else if model_type = "custom" then .ok .none_
  else .ok model

/-- The `for i, model in enumerate(model.model)` loop of
`ModelSerDe.serialize`: each element is serialized under `model_<i>` and
contributes a `{model_type, model_path}` manifest entry, threading the
scratch directory; the first unsupported element aborts the whole
serialization. -/
def serializeModels : List Artifact → Dir → Nat →
    Except String (List ModelEntry × Dir)
  | [], path, _ => .ok ([], path)
  | a :: rest, path, i =>
    match _serialize_single_model a path ("model_" ++ toString i) with
    | .error e => .error e
    | .ok (t, p, path') =>
      match serializeModels rest path' (i + 1) with
      | .error e => .error e
      | .ok (es, path'') => .ok (ModelEntry.mk t p :: es, path'')

/-- The `for k, model in model.model.items()` loop of
`ModelSerDe.serialize`: each value is serialized under `model_<k>` and the
manifest collects name → entry in iteration (insertion) order. -/
def serializeModelsD : List (String × Artifact) → Dir →
    Except String (List (String × ModelEntry) × Dir)
  | [], path => .ok ([], path)
  | (k, a) :: rest, path =>
    match _serialize_single_model a path ("model_" ++ k) with
    | .error e => .error e
    | .ok (t, p, path') =>
      match serializeModelsD rest path' with
      | .error e => .error e
      | .ok (es, path'') => .ok ((k, ModelEntry.mk t p) :: es, path'')

/-- The `model` branch of `ModelSerDe.serialize` followed by the final
manifest write, given the already-collected `metrics`/`stats` manifest
entries and the directory after the `metrics`/`stats` writes.  A list is
serialized element-wise, a dict value-wise, and anything else as the single
model `model`; the manifest is written last, so any codec failure aborts
before it exists. -/
def serializeCore (m : PModel) (miMetrics miStats : Option String)
    (path : Dir) : Except String Dir :=
  match m.model with
  | none => .ok ((METAINFO_FILE, Blob.meta ⟨miMetrics, miStats, none⟩) :: path)
  | some (.list l) =>
    match serializeModels l path 0 with
    | .error e => .error e
    | .ok (es, path') =>
      .ok ((METAINFO_FILE, Blob.meta ⟨miMetrics, miStats, some (.list es)⟩) :: path')
  | some (.dict kvs) =>
    match serializeModelsD kvs path with
    | .error e => .error e
    | .ok (es, path') =>
      .ok ((METAINFO_FILE, Blob.meta ⟨miMetrics, miStats, some (.dict es)⟩) :: path')
  | some (.single a) =>
    match _serialize_single_model a path "model" with
    | .error e => .error e
    | .ok (t, p, path') =>
      .ok ((METAINFO_FILE, Blob.meta ⟨miMetrics, miStats, some (.list [⟨t, p⟩])⟩) :: path')

/-- `ModelSerDe.serialize`: write `metrics` (when present), then `stats`
(when present), then the model property, then the manifest.  (The
"supports only stats, model and metrics" message when nothing was captured
is a log line, not an effect.) -/
def serialize (m : PModel) (path : Dir) : Except String Dir :=
  match m.metrics with
  | some d =>
    (match m.stats with
     | some s =>
       serializeCore m (some METRICS_PATH) (some STATS_PATH)
         (_serialize_dict s (_serialize_dict d path METRICS_PATH) STATS_PATH)
     | none =>
       serializeCore m (some METRICS_PATH) none (_serialize_dict d path METRICS_PATH))
  | none =>
    match m.stats with
    | some s => serializeCore m none (some STATS_PATH) (_serialize_dict s path STATS_PATH)
    | none => serializeCore m none none path

/-- The indexed loop of the multi-entry list branch of
`ModelSerDe.deserialize`: entry `i` is deserialized against `org_model[i]`. -/
def deserializeModelsList (org : SubmodelPart) (path : Dir) :
    List ModelEntry → Nat → Except String (List Artifact)
  | [], _ => .ok []
  | info :: rest, i =>
    match pyGetIndex org i with
    | .error e => .error e
    | .ok a =>
      match _deserialize_single_model a path info.model_type info.model_path with
      | .error e => .error e
      | .ok r =>
        match deserializeModelsList org path rest (i + 1) with
        | .error e => .error e
        | .ok rs => .ok (r :: rs)

/-- The loop of the dict branch of `ModelSerDe.deserialize`: each manifest
entry is deserialized against `org_model[name]`. -/
def deserializeModelsDict (org : SubmodelPart) (path : Dir) :
    List (String × ModelEntry) → Except String (List (String × Artifact))
  | [] => .ok []
  | (k, info) :: rest =>
    match pyGetKey org k with
    | .error e => .error e
    | .ok a =>
      match _deserialize_single_model a path info.model_type info.model_path with
      | .error e => .error e
      | .ok r =>
        match deserializeModelsDict org path rest with
        | .error e => .error e
        | .ok rs => .ok ((k, r) :: rs)

/-- The `metrics` step of `ModelSerDe.deserialize`: when the manifest has a
`metrics` key, reload the fixed `METRICS_PATH` blob into the model. -/
def loadMetrics (m : PModel) (path : Dir) (mi : MetaInfo) : Except String PModel :=
  match mi.metrics with
  | none => .ok m
  | some _ =>
    match _deserialize_dict path METRICS_PATH with
    | .error e => .error e
    | .ok d => .ok {m with metrics := some d}

/-- The `stats` step of `ModelSerDe.deserialize`. -/
def loadStats (m : PModel) (path : Dir) (mi : MetaInfo) : Except String PModel :=
  match mi.stats with
  | none => .ok m
  | some _ =>
    match _deserialize_dict path STATS_PATH with
    | .error e => .error e
    | .ok d => .ok {m with stats := some d}

/-- The `models` step of `ModelSerDe.deserialize`: a one-entry list is the
single-model case (deserialized against `getattr(model, 'model', None)`
itself); a list of any other length deserializes by position against
`org_model or [None] * len`, a dict by name against
`org_model or {k: None}` — padding with `None` only when the existing
attribute is Python-falsy. -/
def loadModels (m : PModel) (path : Dir) (mi : MetaInfo) : Except String PModel :=
  match mi.models with
  | none => .ok m
  | some (.list model_infos) =>
    match model_infos with
    | [info] =>
      match _deserialize_single_model (orgAsObject m.model) path
          info.model_type info.model_path with
      | .error e => .error e
      | .ok a => .ok {m with model := some (.single a)}
    | infos =>
      let org : SubmodelPart :=
        if pyTruthySub m.model then m.model.getD (.list [])
        else .list (List.replicate infos.length .none_)
      match deserializeModelsList org path infos 0 with
      | .error e => .error e
      | .ok as => .ok {m with model := some (.list as)}
  | some (.dict model_infos) =>
    let org : SubmodelPart :=
      if pyTruthySub m.model then m.model.getD (.dict [])
      else .dict (model_infos.map (fun p => (p.1, Artifact.none_)))
    match deserializeModelsDict org path model_infos with
    | .error e => .error e
    | .ok kas => .ok {m with model := some (.dict kas)}

/-- `ModelSerDe.deserialize`: read the manifest (failing when the file is
absent or not a yaml mapping), then restore `metrics`, `stats` and the
`models` field in that order. -/
def deserialize (m : PModel) (path : Dir) : Except String PModel :=
  match dirFind path METAINFO_FILE with
  | none => .error "FileNotFoundError: METAINFO.yaml"
  | some (.meta mi) =>
    (match loadMetrics m path mi with
     | .error e => .error e
     | .ok m1 =>
       match loadStats m1 path mi with
       | .error e => .error e
       | .ok m2 => loadModels m2 path mi)
  | some _ => .error "yaml.load failed"

end ModelSerDe

/-- A value held by the backing store: an archived directory blob
(`set_bytes`/`get_bytes`) or a small object such as the version string
stored under the `"latest"` alias (`set_obj`/`get_obj`). -/
inductive StoreVal where
  | bytes (a : Dir)
  | obj (v : String)
deriving DecidableEq

/-- First association for a key among the store entries. -/
def lookupStore : List (String × StoreVal) → String → Option StoreVal
  | [], _ => none
  | (k, v) :: rest, s => if k = s then some v else lookupStore rest s

/-- Modelled from the spec: the Blob Store contract implemented by the
`LocalStorage`/`S3Storage` backends, which are not among the available
sources.  `entries` is the key→value state, later writes in front
(last-writer-wins overwrite); `failSet` is the set of keys whose writes
fail with a backing-store error, modelling propagated I/O failures. -/
structure Store where
  entries : List (String × StoreVal)
  failSet : List String
deriving DecidableEq

/-- Modelled from the spec: `setBytes(key, bytes)` — store the archive blob
under the key, propagating a backing-store failure unmodified. -/
def Store.set_bytes (st : Store) (k : String) (a : Dir) : Except String Store :=
  if k ∈ st.failSet then .error "BackingStoreFailure"
  else .ok {st with entries := (k, StoreVal.bytes a) :: st.entries}

/-- Modelled from the spec: `setObject(key, value)` for small scalar
values (used for the `"latest"` alias). -/
def Store.set_obj (st : Store) (k : String) (v : String) : Except String Store :=
  if k ∈ st.failSet then .error "BackingStoreFailure"
  else .ok {st with entries := (k, StoreVal.obj v) :: st.entries}

/-- Modelled from the spec: `getBytes(key)` — fails `NotFound` when the key
is absent (or does not hold a byte blob). -/
def Store.get_bytes (st : Store) (k : String) : Except String Dir :=
  match lookupStore st.entries k with
  | some (.bytes a) => .ok a
  | some (.obj _) => .error "NotFound"
  | none => .error "NotFound"

/-- Modelled from the spec: `getObject(key)` — fails `NotFound` when the
key is absent (or does not hold a small object). -/
def Store.get_obj (st : Store) (k : String) : Except String String :=
  match lookupStore st.entries k with
  | some (.obj v) => .ok v
  | some (.bytes _) => .error "NotFound"
  | none => .error "NotFound"

/-- Modelled from the spec: `delete(key)` — remove the single entry stored
under the key. -/
def Store.del (st : Store) (k : String) : Store :=
  {st with entries := st.entries.filter (fun p => p.1 != k)}

/-- The local filesystem's set of live scratch directories, for tracking
`tempfile.mkdtemp()` / `dir_util.remove_tree` pairing: `scratch` holds the
identifiers of currently allocated scratch directories and `nextId` the
next fresh identifier. -/
structure FS where
  scratch : List Nat
  nextId : Nat
deriving DecidableEq

/-- `tempfile.mkdtemp()`: allocate a fresh scratch directory. -/
def FS.alloc (fs : FS) : Nat × FS :=
  (fs.nextId, ⟨fs.nextId :: fs.scratch, fs.nextId + 1⟩)

/-- `dir_util.remove_tree`: release a scratch directory. -/
def FS.remove (fs : FS) (i : Nat) : FS :=
  ⟨fs.scratch.filter (fun j => j != i), fs.nextId⟩

/-- The `model` argument of the repository operations: a model instance or
the model class itself (`_get_key` accepts both). -/
inductive ModelRef where
  | inst (m : PModel)
  | cls (module_ className : String)
deriving DecidableEq

def SEP : String := "::"

/-- The archiver (`_tar_create`), a spec-level black box bundling a
directory into one opaque blob. -/
def _tar_create (d : Dir) : Dir := d

/-- The archiver (`_tar_extract`), inverse of `_tar_create`. -/
def _tar_extract (a : Dir) : Dir := a

namespace ModelRepository

/-- `ModelRepository._get_key`: `<namespace::>?<module>.<class>::<version>`,
where the namespace segment is prepended only when the repository's
namespace string is non-empty (Python truthiness). -/
def _get_key (ns : String) (r : ModelRef) (version : String) : String :=
  let model_name : String :=
    match r with
    | .inst m => m.module_ ++ "." ++ m.className
    | .cls md nm => md ++ "." ++ nm
  let key := model_name ++ SEP ++ version
  if ns ≠ "" then ns ++ SEP ++ key else key

/-- The `try` body of `ModelRepository.persist`: serialize into the fresh
scratch directory, archive it, upload the blob under `key(model, version)`,
upload the version string under `key(model, "latest")`, and only then set
`model.version`.  Returns the outcome together with the store and model
state at the moment the body finished or raised. -/
def persistBody (ns : String) (st : Store) (m : PModel) (version : String) :
    Except String String × Store × PModel :=
  match ModelSerDe.serialize m [] with
  | .error e => (.error e, st, m)
  | .ok dir =>
    match st.set_bytes (_get_key ns (ModelRef.inst m) version) (_tar_create dir) with
    | .error e => (.error e, st, m)
    | .ok st1 =>
      match st1.set_obj (_get_key ns (ModelRef.inst m) "latest") version with
      | .error e => (.error e, st1, m)
      | .ok st2 => (.ok version, st2, {m with version := some version})

/-- `ModelRepository.persist` with an explicit version argument (the code
generates a fresh ulid when the caller passes a falsy one): allocate a
scratch directory, run the body, and release the scratch directory
unconditionally (`finally: dir_util.remove_tree(tmpdir)`), success or
failure alike. -/
def persist (ns : String) (fs : FS) (st : Store) (m : PModel) (version : String) :
    Except String String × FS × Store × PModel :=
  let a := fs.alloc
  let r := persistBody ns st m version
  (r.1, (a.2).remove a.1, r.2.1, r.2.2)

/-- `ModelRepository.load`: resolve an omitted version through the
`key(model, "latest")` alias object, fetch the archive under
`key(model, version)`, extract it and deserialize into `model`, then set
`model.version`.  (The scratch directory is deliberately not removed
during the call; its removal is deferred to an `atexit` hook.) -/
def load (ns : String) (st : Store) (m : PModel) (version : Option String) :
    Except String PModel :=
  match (match version with
         | none => st.get_obj (_get_key ns (ModelRef.inst m) "latest")
         | some v => Except.ok v) with
  | .error e => .error e
  | .ok v =>
    match st.get_bytes (_get_key ns (ModelRef.inst m) v) with
    | .error e => .error e
    | .ok archive =>
      match ModelSerDe.deserialize m (_tar_extract archive) with
      | .error e => .error e
      | .ok m' => .ok {m' with version := some v}

/-- `ModelRepository.delete`: `assert version != 'latest'` (the magic alias
key) before any storage call, then delete the single entry under
`key(model, version)`. -/
def delete (ns : String) (st : Store) (r : ModelRef) (version : String) :
    Except String Store :=
  if version = "latest" then .error "AssertionError"
  else .ok (st.del (_get_key ns r version))

/-- `ModelRepository.download`: fetch and extract only, no SerDe. -/
def download (ns : String) (st : Store) (r : ModelRef) (version : String) :
    Except String Dir :=
  match st.get_bytes (_get_key ns r version) with
  | .error e => .error e
  | .ok archive => .ok (_tar_extract archive)

end ModelRepository

/-- Element-wise deserialization of manifest entries against an absent
(`None`) existing instance — what the multi-entry list branch amounts to
once padding applies. -/
def desArtifacts (d : Dir) : List ModelEntry → Except String (List Artifact)
  | [] => .ok []
  | e :: es =>
    match ModelSerDe._deserialize_single_model .none_ d e.model_type e.model_path with
    | .error err => .error err
    | .ok a =>
      match desArtifacts d es with
      | .error err => .error err
      | .ok as => .ok (a :: as)

/-- Name-wise deserialization of manifest entries against an absent
(`None`) existing instance, keeping the manifest's keys. -/
def desArtifactsD (d : Dir) :
    List (String × ModelEntry) → Except String (List (String × Artifact))
  | [] => .ok []
  | (k, e) :: es =>
    match ModelSerDe._deserialize_single_model .none_ d e.model_type e.model_path with
    | .error err => .error err
    | .ok a =>
      match desArtifactsD d es with
      | .error err => .error err
      | .ok kas => .ok ((k, a) :: kas)

/-! ## Helper lemmas -/

theorem string_append_left_cancel {p a b : String} (h : p ++ a = p ++ b) :
    a = b := by
  apply String.ext
  have hd := congrArg String.data h
  simp only [String.data_append] at hd
  exact List.append_cancel_left hd

theorem get_key_version_inj {ns : String} {r : ModelRef} {a b : String}
    (h : ModelRepository._get_key ns r a = ModelRepository._get_key ns r b) :
    a = b := by
  simp only [ModelRepository._get_key] at h
  by_cases hns : ns ≠ ""
  · rw [if_pos hns, if_pos hns] at h
    exact string_append_left_cancel (string_append_left_cancel h)
  · rw [if_neg hns, if_neg hns] at h
    exact string_append_left_cancel h

theorem lookupStore_cons_self {k : String} {v : StoreVal}
    {rest : List (String × StoreVal)} :
    lookupStore ((k, v) :: rest) k = some v := by
  simp [lookupStore]

theorem lookupStore_cons_ne {k k' : String} {v : StoreVal}
    {rest : List (String × StoreVal)} (h : k ≠ k') :
    lookupStore ((k, v) :: rest) k' = lookupStore rest k' := by
  simp [lookupStore, h]

theorem lookupStore_del_ne {l : List (String × StoreVal)} {k k' : String}
    (h : k' ≠ k) :
    lookupStore (l.filter (fun p => p.1 != k)) k' = lookupStore l k' := by
  induction l with
  | nil => rfl
  | cons p rest ih =>
    obtain ⟨pk, pv⟩ := p
    by_cases hp : pk = k
    · subst hp
      rw [List.filter_cons_of_neg (by simp)]
      rw [ih]
      exact (lookupStore_cons_ne fun he => h he.symm).symm
    · rw [List.filter_cons_of_pos (by simp [hp])]
      by_cases hpk : pk = k'
      · subst hpk
        simp [lookupStore, ih]
      · simp [lookupStore, hpk, ih]

theorem pyGetIndex_replicate {n i : Nat} (h : i < n) :
    pyGetIndex (.list (List.replicate n Artifact.none_)) i = .ok .none_ := by
  simp [pyGetIndex, List.get?_eq_getElem?, List.getElem?_replicate, h]

theorem deserializeModelsList_replicate (d : Dir) (es : List ModelEntry) :
    ∀ (i n : Nat), i + es.length ≤ n →
    ModelSerDe.deserializeModelsList (.list (List.replicate n Artifact.none_))
        d es i = desArtifacts d es := by
  induction es with
  | nil => intro i n _; rfl
  | cons e rest ih =>
    intro i n h
    have hi : i < n := by simp at h; omega
    have hrec := ih (i + 1) n (by simp at h ⊢; omega)
    cases hd : ModelSerDe._deserialize_single_model .none_ d
        e.model_type e.model_path with
    | error err =>
      simp [ModelSerDe.deserializeModelsList, desArtifacts,
        pyGetIndex_replicate hi, hd]
    | ok a =>
      simp [ModelSerDe.deserializeModelsList, desArtifacts,
        pyGetIndex_replicate hi, hd, hrec]

theorem desArtifacts_length {d : Dir} {es : List ModelEntry}
    {as : List Artifact} (h : desArtifacts d es = .ok as) :
    as.length = es.length := by
  induction es generalizing as with
  | nil =>
    simp [desArtifacts] at h
    subst h
    rfl
  | cons e rest ih =>
    unfold desArtifacts at h
    cases hd : ModelSerDe._deserialize_single_model .none_ d
        e.model_type e.model_path with
    | error err => rw [hd] at h; cases h
    | ok a =>
      rw [hd] at h
      cases hr : desArtifacts d rest with
      | error err => rw [hr] at h; cases h
      | ok as' =>
        rw [hr] at h
        injection h with h
        subst h
        simp [ih hr]

theorem desArtifactsD_keys {d : Dir} {ks : List (String × ModelEntry)}
    {kas : List (String × Artifact)} (h : desArtifactsD d ks = .ok kas) :
    kas.map Prod.fst = ks.map Prod.fst := by
  induction ks generalizing kas with
  | nil =>
    simp [desArtifactsD] at h
    subst h
    rfl
  | cons p rest ih =>
    obtain ⟨k, e⟩ := p
    unfold desArtifactsD at h
    cases hd : ModelSerDe._deserialize_single_model .none_ d
        e.model_type e.model_path with
    | error err => rw [hd] at h; cases h
    | ok a =>
      rw [hd] at h
      cases hr : desArtifactsD d rest with
      | error err => rw [hr] at h; cases h
      | ok kas' =>
        rw [hr] at h
        injection h with h
        subst h
        simp [ih hr]

theorem assocFind_pad {ks : List (String × ModelEntry)} {k : String}
    (h : k ∈ ks.map Prod.fst) :
    assocFind (ks.map fun q => (q.1, Artifact.none_)) k = some .none_ := by
  induction ks with
  | nil => simp at h
  | cons p rest ih =>
    by_cases hk : p.1 = k
    · simp [assocFind, hk]
    · have hmem : k ∈ rest.map Prod.fst := by
        rcases List.mem_cons.mp h with he | hm
        · exact absurd he.symm hk
        · exact hm
      simp [assocFind, hk, ih hmem]

theorem deserializeModelsDict_pad (d : Dir) (org : SubmodelPart)
    (ks : List (String × ModelEntry))
    (h : ∀ p ∈ ks, pyGetKey org p.1 = .ok .none_) :
    ModelSerDe.deserializeModelsDict org d ks = desArtifactsD d ks := by
  induction ks with
  | nil => rfl
  | cons p rest ih =>
    obtain ⟨k, e⟩ := p
    have hk := h (k, e) (List.mem_cons_self _ _)
    have hrec := ih fun q hq => h q (List.mem_cons_of_mem _ hq)
    cases hd : ModelSerDe._deserialize_single_model .none_ d
        e.model_type e.model_path with
    | error err =>
      simp [ModelSerDe.deserializeModelsDict, desArtifactsD, hk, hd]
    | ok a =>
      simp [ModelSerDe.deserializeModelsDict, desArtifactsD, hk, hd, hrec]

/-! ## Claims -/

theorem persist_success (ns v : String) (fs : FS) (st : Store) (m : PModel)
    (d : Dir) (hser : ModelSerDe.serialize m [] = .ok d)
    (hb : ModelRepository._get_key ns (ModelRef.inst m) v ∉ st.failSet)
    (hl : ModelRepository._get_key ns (ModelRef.inst m) "latest" ∉ st.failSet) :
    (ModelRepository.persist ns fs st m v).1 = .ok v ∧
    (ModelRepository.persist ns fs st m v).2.2.1
      = ⟨(ModelRepository._get_key ns (ModelRef.inst m) "latest", StoreVal.obj v)
          :: (ModelRepository._get_key ns (ModelRef.inst m) v, StoreVal.bytes d)
          :: st.entries, st.failSet⟩ := by
  unfold ModelRepository.persist ModelRepository.persistBody
  rw [hser]
  simp [Store.set_bytes, Store.set_obj, hb, hl, _tar_create]

theorem load_some_eq (ns v : String) (st : Store) (m : PModel) (d : Dir)
    (h : lookupStore st.entries
        (ModelRepository._get_key ns (ModelRef.inst m) v)
      = some (StoreVal.bytes d)) :
    ModelRepository.load ns st m (some v)
      = Except.map (fun x => {x with version := some v})
          (ModelSerDe.deserialize m d) := by
  cases hd : ModelSerDe.deserialize m d <;>
    simp [ModelRepository.load, Store.get_bytes, h, _tar_extract, hd, Except.map]

theorem load_resolves_latest (ns v : String) (st : Store) (m : PModel)
    (h : lookupStore st.entries
        (ModelRepository._get_key ns (ModelRef.inst m) "latest")
      = some (StoreVal.obj v)) :
    ModelRepository.load ns st m none = ModelRepository.load ns st m (some v) := by
  simp [ModelRepository.load, Store.get_obj, h]

/-- Claim C8: key derivation is a pure function of the model's fully
qualified type name, the version and the namespace: the key computed for a
model instance equals the key computed for its class, and two instances of
the same class yield the same key whatever their `stats`/`metrics`/`model`/
`version` state. -/
theorem c8_key_determinism (ns v : String) (m m' : PModel)
    (h1 : m.module_ = m'.module_) (h2 : m.className = m'.className) :
    ModelRepository._get_key ns (ModelRef.inst m) v
      = ModelRepository._get_key ns (ModelRef.cls m.module_ m.className) v ∧
    ModelRepository._get_key ns (ModelRef.inst m) v
      = ModelRepository._get_key ns (ModelRef.inst m') v := by
  refine ⟨rfl, ?_⟩
  simp [ModelRepository._get_key, h1, h2]

/-- Witness for C8 at a concrete instance/class pair with differing
instance state. -/
theorem c8_key_determinism_witness :
    ModelRepository._get_key "_models"
        (ModelRef.inst ⟨"m", "C", none, none, none, none⟩) "v1"
      = ModelRepository._get_key "_models" (ModelRef.cls "m" "C") "v1" ∧
    ModelRepository._get_key "_models"
        (ModelRef.inst ⟨"m", "C", none, none, none, none⟩) "v1"
      = ModelRepository._get_key "_models"
        (ModelRef.inst ⟨"m", "C", some 1, some 2,
          some (.single (.sklearnModel 3)), some "v0"⟩) "v1" :=
  c8_key_determinism "_models" "v1" _ _ rfl rfl

/-- Claim C5: a version-omitted `load` resolves the version by looking up
`key(model, "latest")`: when that alias entry is absent the operation
fails with the propagated not-found error (the spec's `NoVersionFound`),
and when it holds a version string `v` the load proceeds exactly as
`load(model, v)`. -/
theorem c5_latest_resolution (ns : String) (st : Store) (m : PModel) :
    (lookupStore st.entries
        (ModelRepository._get_key ns (ModelRef.inst m) "latest") = none →
      ModelRepository.load ns st m none = .error "NotFound") ∧
    (∀ v, lookupStore st.entries
        (ModelRepository._get_key ns (ModelRef.inst m) "latest")
          = some (StoreVal.obj v) →
      ModelRepository.load ns st m none = ModelRepository.load ns st m (some v)) := by
  constructor
  · intro h
    simp [ModelRepository.load, Store.get_obj, h]
  · intro v h
    simp [ModelRepository.load, Store.get_obj, h]

/-- Witness for C5 on the empty store and on a store whose alias points at
`"v1"`. -/
theorem c5_latest_resolution_witness :
    ModelRepository.load "_models" ⟨[], []⟩ ⟨"m", "C", none, none, none, none⟩ none
      = .error "NotFound" ∧
    ModelRepository.load "_models"
        ⟨[(ModelRepository._get_key "_models" (ModelRef.cls "m" "C") "latest",
           StoreVal.obj "v1")], []⟩
        ⟨"m", "C", none, none, none, none⟩ none
      = ModelRepository.load "_models"
        ⟨[(ModelRepository._get_key "_models" (ModelRef.cls "m" "C") "latest",
           StoreVal.obj "v1")], []⟩
        ⟨"m", "C", none, none, none, none⟩ (some "v1") :=
  ⟨(c5_latest_resolution "_models" ⟨[], []⟩ _).1 rfl,
   (c5_latest_resolution "_models" _ _).2 "v1" (by decide)⟩

/-- Claim C6: `delete(model, "latest")` fails on the assertion before any
storage call; for any other version the resulting store is exactly the
original with the single entry `key(model, version)` removed, and the
`"latest"` alias entry is untouched. -/
theorem c6_delete (ns : String) (st : Store) (r : ModelRef) :
    ModelRepository.delete ns st r "latest" = .error "AssertionError" ∧
    ∀ v, v ≠ "latest" →
      ModelRepository.delete ns st r v
          = .ok (st.del (ModelRepository._get_key ns r v)) ∧
      lookupStore (st.del (ModelRepository._get_key ns r v)).entries
          (ModelRepository._get_key ns r "latest")
        = lookupStore st.entries (ModelRepository._get_key ns r "latest") := by
  refine ⟨rfl, fun v hv => ⟨by simp [ModelRepository.delete, hv], ?_⟩⟩
  exact lookupStore_del_ne fun he => hv (get_key_version_inj he).symm

/-- Witness for C6 on a two-entry store holding a `"v1"` blob and the
alias. -/
theorem c6_delete_witness :
    ModelRepository.delete "_models"
        ⟨[(ModelRepository._get_key "_models" (ModelRef.cls "m" "C") "v1",
           StoreVal.bytes []),
          (ModelRepository._get_key "_models" (ModelRef.cls "m" "C") "latest",
           StoreVal.obj "v1")], []⟩
        (ModelRef.cls "m" "C") "latest" = .error "AssertionError" ∧
    (ModelRepository.delete "_models"
        ⟨[(ModelRepository._get_key "_models" (ModelRef.cls "m" "C") "v1",
           StoreVal.bytes []),
          (ModelRepository._get_key "_models" (ModelRef.cls "m" "C") "latest",
           StoreVal.obj "v1")], []⟩
        (ModelRef.cls "m" "C") "v1"
      = .ok (Store.del
          ⟨[(ModelRepository._get_key "_models" (ModelRef.cls "m" "C") "v1",
             StoreVal.bytes []),
            (ModelRepository._get_key "_models" (ModelRef.cls "m" "C") "latest",
             StoreVal.obj "v1")], []⟩
          (ModelRepository._get_key "_models" (ModelRef.cls "m" "C") "v1")) ∧
     lookupStore (Store.del
          ⟨[(ModelRepository._get_key "_models" (ModelRef.cls "m" "C") "v1",
             StoreVal.bytes []),
            (ModelRepository._get_key "_models" (ModelRef.cls "m" "C") "latest",
             StoreVal.obj "v1")], []⟩
          (ModelRepository._get_key "_models" (ModelRef.cls "m" "C") "v1")).entries
        (ModelRepository._get_key "_models" (ModelRef.cls "m" "C") "latest")
      = lookupStore
          [(ModelRepository._get_key "_models" (ModelRef.cls "m" "C") "v1",
            StoreVal.bytes []),
           (ModelRepository._get_key "_models" (ModelRef.cls "m" "C") "latest",
            StoreVal.obj "v1")]
          (ModelRepository._get_key "_models" (ModelRef.cls "m" "C") "latest")) :=
  ⟨(c6_delete "_models" _ (ModelRef.cls "m" "C")).1,
   (c6_delete "_models" _ (ModelRef.cls "m" "C")).2 "v1" (by decide)⟩

/-- Claim C9: the scratch directory allocated by `persist` is removed on
every exit path — the `finally` clause runs after success and after any
failure of serialization, archiving or either store upload (the store's
`failSet` models upload failures) — so the set of live scratch
directories after `persist` equals the set before. -/
theorem c9_scratch_cleanup (ns : String) (fs : FS) (st : Store) (m : PModel)
    (v : String) (h : ∀ i ∈ fs.scratch, i < fs.nextId) :
    (ModelRepository.persist ns fs st m v).2.1.scratch = fs.scratch := by
  have hfs : (ModelRepository.persist ns fs st m v).2.1
      = (fs.alloc.2).remove fs.alloc.1 := rfl
  rw [hfs]
  simp only [FS.alloc, FS.remove, List.filter]
  rw [bne_self_eq_false]
  exact List.filter_eq_self.mpr fun j hj => by
    simpa using Nat.ne_of_lt (h j hj)

/-- Witness for C9: a persist that fails at serialization (unsupported
artifact) and one that succeeds both leave the scratch set unchanged. -/
theorem c9_scratch_cleanup_witness :
    (ModelRepository.persist "_models" ⟨[0], 1⟩ ⟨[], []⟩
        ⟨"m", "C", none, none, some (.single (.other 0)), none⟩ "v1").2.1.scratch
      = [0] ∧
    (ModelRepository.persist "_models" ⟨[0], 1⟩ ⟨[], []⟩
        ⟨"m", "C", none, none, some (.single .none_), none⟩ "v1").2.1.scratch
      = [0] :=
  ⟨c9_scratch_cleanup "_models" ⟨[0], 1⟩ ⟨[], []⟩ _ "v1" (by simp),
   c9_scratch_cleanup "_models" ⟨[0], 1⟩ ⟨[], []⟩ _ "v1" (by simp)⟩

/-- Claim C10: `model.version` is assigned last: when any step of
`persist` fails (serialization, blob upload or alias upload), the model
object is returned unchanged, and on success the only mutation is setting
`version` to the persisted version. -/
theorem c10_version_assigned_last (ns : String) (fs : FS) (st : Store)
    (m : PModel) (v : String) :
    (∀ e, (ModelRepository.persist ns fs st m v).1 = .error e →
      (ModelRepository.persist ns fs st m v).2.2.2 = m) ∧
    ((ModelRepository.persist ns fs st m v).1 = .ok v →
      (ModelRepository.persist ns fs st m v).2.2.2 = {m with version := some v}) := by
  unfold ModelRepository.persist ModelRepository.persistBody
  cases hser : ModelSerDe.serialize m [] with
  | error e => simp
  | ok dir =>
    cases hsb : Store.set_bytes st
        (ModelRepository._get_key ns (ModelRef.inst m) v) (_tar_create dir) with
    | error e => simp [hsb]
    | ok st1 =>
      cases hso : Store.set_obj st1
          (ModelRepository._get_key ns (ModelRef.inst m) "latest") v with
      | error e => simp [hsb, hso]
      | ok st2 => simp [hsb, hso]

/-- Witness for C10: a persist failing at serialization returns the model
untouched; a successful persist returns it with only `version` set. -/
theorem c10_version_assigned_last_witness :
    (ModelRepository.persist "_models" ⟨[], 0⟩ ⟨[], []⟩
        ⟨"m", "C", none, none, some (.single (.other 0)), none⟩ "v1").2.2.2
      = ⟨"m", "C", none, none, some (.single (.other 0)), none⟩ ∧
    (ModelRepository.persist "_models" ⟨[], 0⟩ ⟨[], []⟩
        ⟨"m", "C", none, none, some (.single .none_), none⟩ "v1").2.2.2
      = ⟨"m", "C", none, none, some (.single .none_), some "v1"⟩ :=
  ⟨(c10_version_assigned_last "_models" ⟨[], 0⟩ ⟨[], []⟩ _ "v1").1
      "Unsupported model!!!" rfl,
   (c10_version_assigned_last "_models" ⟨[], 0⟩ ⟨[], []⟩ _ "v1").2 rfl⟩

/-- Claim C7: serializing a composite whose submodel matches no codec
predicate and is not `None` raises `ValueError('Unsupported model!!!')`
(the spec's `UnsupportedArtifactKind`); the serialization aborts before
the manifest write, so no manifest document is produced. -/
theorem c7_unsupported_artifact (m : PModel) (d : Dir) (a : Artifact)
    (hm : m.model = some (.single a))
    (hk : ModelSerDe._get_model_type a = none) :
    ModelSerDe.serialize m d = .error "Unsupported model!!!" := by
  cases a with
  | other t =>
    unfold ModelSerDe.serialize
    cases hme : m.metrics <;> cases hst : m.stats <;>
      simp [ModelSerDe.serializeCore, hm, ModelSerDe._serialize_single_model,
        ModelSerDe._get_model_type]
  | sklearnModel x => simp [ModelSerDe._get_model_type] at hk
  | kerasModel w => simp [ModelSerDe._get_model_type] at hk
  | none_ => simp [ModelSerDe._get_model_type] at hk

/-- Witness for C7 at a concrete unrecognized artifact, with stats and
metrics present. -/
theorem c7_unsupported_artifact_witness :
    ModelSerDe.serialize ⟨"m", "C", some 1, some 2,
        some (.single (.other 7)), none⟩ []
      = .error "Unsupported model!!!" :=
  c7_unsupported_artifact _ [] (.other 7) rfl rfl

/-- Claim C4: a composite with no stats, no metrics and a `None`-valued
single submodel serializes to a scratch directory holding nothing but the
manifest `models: [{model_type: custom, model_path: model}]`, and any
manifest with a single `custom` entry deserializes to `None` for the
submodel regardless of the stored path and of the target's existing
state. -/
theorem c4_absence_roundtrip :
    (∀ m : PModel, m.metrics = none → m.stats = none →
      m.model = some (.single .none_) →
      ModelSerDe.serialize m []
        = .ok [(ModelSerDe.METAINFO_FILE,
            Blob.meta ⟨none, none, some (.list [⟨"custom", "model"⟩])⟩)]) ∧
    (∀ (mt : PModel) (d : Dir) (p : String),
      dirFind d ModelSerDe.METAINFO_FILE
          = some (Blob.meta ⟨none, none, some (.list [⟨"custom", p⟩])⟩) →
      ModelSerDe.deserialize mt d = .ok {mt with model := some (.single .none_)}) := by
  constructor
  · intro m h1 h2 h3
    unfold ModelSerDe.serialize
    rw [h1, h2]
    simp [ModelSerDe.serializeCore, h3, ModelSerDe._serialize_single_model,
      ModelSerDe._get_model_type]
  · intro mt d p h
    unfold ModelSerDe.deserialize
    rw [h]
    simp [ModelSerDe.loadMetrics, ModelSerDe.loadStats, ModelSerDe.loadModels,
      ModelSerDe._deserialize_single_model]

/-- Witness for C4: concrete absent-parts model and a manifest with a
non-default stored path deserialized into a target that already holds a
submodel. -/
theorem c4_absence_roundtrip_witness :
    ModelSerDe.serialize ⟨"m", "C", none, none, some (.single .none_), none⟩ []
      = .ok [(ModelSerDe.METAINFO_FILE,
          Blob.meta ⟨none, none, some (.list [⟨"custom", "model"⟩])⟩)] ∧
    ModelSerDe.deserialize
        ⟨"m", "C", none, none, some (.single (.sklearnModel 9)), none⟩
        [(ModelSerDe.METAINFO_FILE,
          Blob.meta ⟨none, none, some (.list [⟨"custom", "elsewhere"⟩])⟩)]
      = .ok ⟨"m", "C", none, none, some (.single .none_), none⟩ :=
  ⟨c4_absence_roundtrip.1 _ rfl rfl rfl,
   c4_absence_roundtrip.2 _ _ "elsewhere" rfl⟩

/-- Claim C2 counterexample: a manifest with a two-entry `models` list
deserialized into a model whose existing submodel list is non-empty but
shorter (length 1) does not pad — `org_model or [...]` keeps the truthy
existing list and `org_model[1]` raises `IndexError`, so deserialization
fails instead of succeeding with `None` padding. -/
theorem c2_counterexample :
    ModelSerDe.deserialize ⟨"m", "C", none, none, some (.list [.none_]), none⟩
        [(ModelSerDe.METAINFO_FILE, Blob.meta ⟨none, none,
          some (.list [⟨"custom", "model_0"⟩, ⟨"custom", "model_1"⟩])⟩)]
      = .error "IndexError" := rfl

/-- Claim C2 (amended): the `None` padding happens only when the target's
existing submodel attribute is Python-falsy (absent, `None`, or an empty
list/map) — a non-empty existing collection that is shorter than the
manifest list (or missing one of its keys) makes deserialization fail with
an index/key error instead.  When padding applies and every manifest entry
deserializes against an absent instance, `deserialize` succeeds and
assigns a collection of exactly the manifest's length (list case, length
> 1) resp. the manifest's keys (mapping case). -/
theorem c2_padding_amended :
    (∀ (mt : PModel) (d : Dir) (es : List ModelEntry) (as : List Artifact),
      dirFind d ModelSerDe.METAINFO_FILE
          = some (Blob.meta ⟨none, none, some (.list es)⟩) →
      1 < es.length →
      pyTruthySub mt.model = false →
      desArtifacts d es = .ok as →
      ModelSerDe.deserialize mt d = .ok {mt with model := some (.list as)} ∧
        as.length = es.length) ∧
    (∀ (mt : PModel) (d : Dir) (ks : List (String × ModelEntry))
        (kas : List (String × Artifact)),
      dirFind d ModelSerDe.METAINFO_FILE
          = some (Blob.meta ⟨none, none, some (.dict ks)⟩) →
      pyTruthySub mt.model = false →
      desArtifactsD d ks = .ok kas →
      ModelSerDe.deserialize mt d = .ok {mt with model := some (.dict kas)} ∧
        kas.map Prod.fst = ks.map Prod.fst) := by
  constructor
  · intro mt d es as hmeta hlen hfalsy hdes
    obtain ⟨e1, es1, rfl⟩ : ∃ e1 es1, es = e1 :: es1 := by
      cases es with
      | nil => simp at hlen
      | cons a b => exact ⟨a, b, rfl⟩
    obtain ⟨e2, es2, rfl⟩ : ∃ e2 es2, es1 = e2 :: es2 := by
      cases es1 with
      | nil => simp at hlen
      | cons a b => exact ⟨a, b, rfl⟩
    refine ⟨?_, desArtifacts_length hdes⟩
    unfold ModelSerDe.deserialize
    rw [hmeta]
    simp only [ModelSerDe.loadMetrics, ModelSerDe.loadStats, ModelSerDe.loadModels]
    rw [hfalsy]
    simp only [Bool.false_eq_true, if_false]
    rw [deserializeModelsList_replicate d (e1 :: e2 :: es2) 0 _ (by simp), hdes]
  · intro mt d ks kas hmeta hfalsy hdes
    refine ⟨?_, desArtifactsD_keys hdes⟩
    unfold ModelSerDe.deserialize
    rw [hmeta]
    simp only [ModelSerDe.loadMetrics, ModelSerDe.loadStats, ModelSerDe.loadModels]
    rw [hfalsy]
    simp only [Bool.false_eq_true, if_false]
    rw [deserializeModelsDict_pad d _ ks
      (fun p hp => by
        have : p.1 ∈ ks.map Prod.fst := List.mem_map.mpr ⟨p, hp, rfl⟩
        simp [pyGetKey, assocFind_pad this]), hdes]

/-- Witness for the amended C2: a fresh target padded against a two-entry
list manifest and against a two-key mapping manifest. -/
theorem c2_padding_amended_witness :
    (ModelSerDe.deserialize ⟨"m", "C", none, none, none, none⟩
        [(ModelSerDe.METAINFO_FILE, Blob.meta ⟨none, none,
          some (.list [⟨"custom", "model_0"⟩, ⟨"custom", "model_1"⟩])⟩)]
      = .ok ⟨"m", "C", none, none, some (.list [.none_, .none_]), none⟩ ∧
     ([Artifact.none_, Artifact.none_] : List Artifact).length
       = ([⟨"custom", "model_0"⟩, ⟨"custom", "model_1"⟩] : List ModelEntry).length) ∧
    (ModelSerDe.deserialize ⟨"m", "C", none, none, some (.dict []), none⟩
        [(ModelSerDe.METAINFO_FILE, Blob.meta ⟨none, none,
          some (.dict [("a", ⟨"custom", "model_a"⟩), ("b", ⟨"custom", "model_b"⟩)])⟩)]
      = .ok ⟨"m", "C", none, none,
          some (.dict [("a", .none_), ("b", .none_)]), none⟩ ∧
     ([("a", Artifact.none_), ("b", Artifact.none_)] : List (String × Artifact)).map Prod.fst
       = ([("a", (⟨"custom", "model_a"⟩ : ModelEntry)),
           ("b", ⟨"custom", "model_b"⟩)] : List (String × ModelEntry)).map Prod.fst) :=
  ⟨c2_padding_amended.1 ⟨"m", "C", none, none, none, none⟩ _ _ _ rfl (by decide) rfl rfl,
   c2_padding_amended.2 ⟨"m", "C", none, none, some (.dict []), none⟩ _ _ _ rfl rfl rfl⟩

theorem list_length_three {α : Type} {l : List α} (h : l.length = 3) :
    ∃ a b c, l = [a, b, c] := by
  cases l with
  | nil => simp at h
  | cons a t =>
    cases t with
    | nil => simp at h
    | cons b t2 =>
      cases t2 with
      | nil => simp at h
      | cons c t3 =>
        cases t3 with
        | nil => exact ⟨a, b, c, rfl⟩
        | cons e t4 => simp at h

theorem list_keys_ab {ks : List (String × Artifact)}
    (h : ks.map Prod.fst = ["a", "b"]) : ∃ x y, ks = [("a", x), ("b", y)] := by
  cases ks with
  | nil => simp at h
  | cons p t =>
    cases t with
    | nil => simp at h
    | cons q t2 =>
      cases t2 with
      | cons r t3 => simp at h
      | nil =>
        obtain ⟨p1, p2⟩ := p
        obtain ⟨q1, q2⟩ := q
        simp at h
        obtain ⟨h1, h2⟩ := h
        subst h1
        subst h2
        exact ⟨p2, q2, rfl⟩

/-- Claim C3: shape-preserving round-trip.  Whenever serializing a model
whose submodels part is an ordered list of length 3 succeeds and
deserializing the result into a fresh model (no existing `model`
attribute) succeeds, the fresh model receives exactly the source list —
length 3, same positional order (in fact the same elements); likewise a
named map with keys `{"a","b"}` round-trips to a map with exactly those
keys (in fact the same entries). -/
theorem c3_shape_roundtrip :
    (∀ (ms mf m' : PModel) (l : List Artifact) (d : Dir),
      ms.model = some (.list l) → l.length = 3 → mf.model = none →
      ModelSerDe.serialize ms [] = .ok d →
      ModelSerDe.deserialize mf d = .ok m' →
      m'.model = some (.list l)) ∧
    (∀ (ms mf m' : PModel) (ks : List (String × Artifact)) (d : Dir),
      ms.model = some (.dict ks) → ks.map Prod.fst = ["a", "b"] →
      mf.model = none →
      ModelSerDe.serialize ms [] = .ok d →
      ModelSerDe.deserialize mf d = .ok m' →
      m'.model = some (.dict ks)) := by
  constructor
  · intro ms mf m' l d hms hl hmf hser hdes
    obtain ⟨a, b, c, rfl⟩ := list_length_three hl
    obtain ⟨smd, scn, smtr, ssts, smdl, sver⟩ := ms
    obtain ⟨fmd, fcn, fmtr, fsts, fmdl, fver⟩ := mf
    dsimp only at hms hmf
    subst hms
    subst hmf
    rcases smtr with _ | dm <;> rcases ssts with _ | ds <;>
      rcases a with x | x | _ | x <;>
      rcases b with y | y | _ | y <;>
      rcases c with z | z | _ | z <;>
      first
      | (have h1 := Except.ok.inj hser
         subst h1
         first
         | (have h2 := Except.ok.inj hdes
            subst h2
            rfl)
         | exact Except.noConfusion hdes)
      | exact Except.noConfusion hser
  · intro ms mf m' ks d hms hkeys hmf hser hdes
    obtain ⟨x, y, rfl⟩ := list_keys_ab hkeys
    obtain ⟨smd, scn, smtr, ssts, smdl, sver⟩ := ms
    obtain ⟨fmd, fcn, fmtr, fsts, fmdl, fver⟩ := mf
    dsimp only at hms hmf
    subst hms
    subst hmf
    rcases smtr with _ | dm <;> rcases ssts with _ | ds <;>
      rcases x with u | u | _ | u <;>
      rcases y with v | v | _ | v <;>
      first
      | (have h1 := Except.ok.inj hser
         subst h1
         first
         | (have h2 := Except.ok.inj hdes
            subst h2
            rfl)
         | exact Except.noConfusion hdes)
      | exact Except.noConfusion hser

/-- Witness for C3: a 3-element list (two sklearn estimators and a `None`)
with stats and metrics present, and an `{"a","b"}` map, both round-tripped
through concrete directories into a fresh model. -/
theorem c3_shape_roundtrip_witness :
    (⟨"m", "C", some 5, some 6,
       some (.list [.sklearnModel 1, .none_, .sklearnModel 2]), none⟩ : PModel).model
      = some (.list [.sklearnModel 1, .none_, .sklearnModel 2]) ∧
    (⟨"m", "C", none, none,
       some (.dict [("a", .sklearnModel 1), ("b", .none_)]), none⟩ : PModel).model
      = some (.dict [("a", .sklearnModel 1), ("b", .none_)]) :=
  ⟨c3_shape_roundtrip.1
      ⟨"m", "C", some 5, some 6,
        some (.list [.sklearnModel 1, .none_, .sklearnModel 2]), none⟩
      ⟨"m", "C", none, none, none, none⟩
      ⟨"m", "C", some 5, some 6,
        some (.list [.sklearnModel 1, .none_, .sklearnModel 2]), none⟩
      [.sklearnModel 1, .none_, .sklearnModel 2]
      [(ModelSerDe.METAINFO_FILE, Blob.meta ⟨some "metrics.joblib", some "stats.joblib",
          some (.list [⟨"sklearn", "model_0.joblib"⟩, ⟨"custom", "model_1"⟩,
            ⟨"sklearn", "model_2.joblib"⟩])⟩),
       ("model_2.joblib", Blob.joblibM (.sklearnModel 2)),
       ("model_0.joblib", Blob.joblibM (.sklearnModel 1)),
       ("stats.joblib", Blob.joblibD 6),
       ("metrics.joblib", Blob.joblibD 5)]
      rfl rfl rfl rfl rfl,
   c3_shape_roundtrip.2
      ⟨"m", "C", none, none,
        some (.dict [("a", .sklearnModel 1), ("b", .none_)]), none⟩
      ⟨"m", "C", none, none, none, none⟩
      ⟨"m", "C", none, none,
        some (.dict [("a", .sklearnModel 1), ("b", .none_)]), none⟩
      [("a", .sklearnModel 1), ("b", .none_)]
      [(ModelSerDe.METAINFO_FILE, Blob.meta ⟨none, none,
          some (.dict [("a", ⟨"sklearn", "model_a.joblib"⟩),
            ("b", ⟨"custom", "model_b"⟩)])⟩),
       ("model_a.joblib", Blob.joblibM (.sklearnModel 1))]
      rfl rfl rfl rfl rfl⟩

/-- Claim C1: alias semantics of the versioned repository protocol.
`persist` uploads the archived blob under `key(model, version)` and then
writes the version string under `key(model, "latest")`; consequently after
`persist(m1, v1)` a version-omitted `load` resolves to `v1`'s archived
content, after a subsequent `persist(m2, v2)` (same model class) a
version-omitted `load` resolves to `v2`'s content, and `load(model, v1)`
still resolves to `v1`'s content — where "resolves to `vᵢ`'s content"
means the load deserializes exactly the directory `dᵢ` that the `i`-th
persist serialized and sets the loaded model's version to `vᵢ`. -/
theorem c1_alias_semantics (ns v1 v2 : String) (fs : FS) (st : Store)
    (m1 m2 mt : PModel) (d1 d2 : Dir)
    (hv12 : v1 ≠ v2) (hv1 : v1 ≠ "latest") (hv2 : v2 ≠ "latest")
    (hfail : st.failSet = [])
    (hmd1 : mt.module_ = m1.module_) (hcn1 : mt.className = m1.className)
    (hmd2 : mt.module_ = m2.module_) (hcn2 : mt.className = m2.className)
    (hs1 : ModelSerDe.serialize m1 [] = .ok d1)
    (hs2 : ModelSerDe.serialize m2 [] = .ok d2) :
    (ModelRepository.persist ns fs st m1 v1).1 = .ok v1 ∧
    ModelRepository.load ns (ModelRepository.persist ns fs st m1 v1).2.2.1 mt none
      = Except.map (fun x => {x with version := some v1})
          (ModelSerDe.deserialize mt d1) ∧
    (ModelRepository.persist ns fs
        (ModelRepository.persist ns fs st m1 v1).2.2.1 m2 v2).1 = .ok v2 ∧
    ModelRepository.load ns
        (ModelRepository.persist ns fs
          (ModelRepository.persist ns fs st m1 v1).2.2.1 m2 v2).2.2.1 mt none
      = Except.map (fun x => {x with version := some v2})
          (ModelSerDe.deserialize mt d2) ∧
    ModelRepository.load ns
        (ModelRepository.persist ns fs
          (ModelRepository.persist ns fs st m1 v1).2.2.1 m2 v2).2.2.1 mt (some v1)
      = Except.map (fun x => {x with version := some v1})
          (ModelSerDe.deserialize mt d1) := by
  have e1 : ∀ w, ModelRepository._get_key ns (ModelRef.inst m1) w
      = ModelRepository._get_key ns (ModelRef.inst mt) w := by
    intro w
    simp [ModelRepository._get_key, hmd1, hcn1]
  have e2 : ∀ w, ModelRepository._get_key ns (ModelRef.inst m2) w
      = ModelRepository._get_key ns (ModelRef.inst mt) w := by
    intro w
    simp [ModelRepository._get_key, hmd2, hcn2]
  have hneL1 : ModelRepository._get_key ns (ModelRef.inst mt) "latest"
      ≠ ModelRepository._get_key ns (ModelRef.inst mt) v1 :=
    fun h => hv1 (get_key_version_inj h).symm
  have hneL2 : ModelRepository._get_key ns (ModelRef.inst mt) "latest"
      ≠ ModelRepository._get_key ns (ModelRef.inst mt) v2 :=
    fun h => hv2 (get_key_version_inj h).symm
  have hne21 : ModelRepository._get_key ns (ModelRef.inst mt) v2
      ≠ ModelRepository._get_key ns (ModelRef.inst mt) v1 :=
    fun h => hv12 (get_key_version_inj h).symm
  obtain ⟨hp1, hst1⟩ := persist_success ns v1 fs st m1 d1 hs1
    (by rw [hfail]; simp) (by rw [hfail]; simp)
  rw [hfail, e1 v1, e1 "latest"] at hst1
  rw [hst1]
  obtain ⟨hp2, hst2⟩ := persist_success ns v2 fs
    ⟨(ModelRepository._get_key ns (ModelRef.inst mt) "latest", StoreVal.obj v1)
      :: (ModelRepository._get_key ns (ModelRef.inst mt) v1, StoreVal.bytes d1)
      :: st.entries, []⟩ m2 d2 hs2 (by simp) (by simp)
  rw [e2 v2, e2 "latest"] at hst2
  rw [hst2]
  refine ⟨hp1, ?_, hp2, ?_, ?_⟩
  · rw [load_resolves_latest ns v1 _ mt (by simp [lookupStore])]
    apply load_some_eq
    simp [lookupStore, hneL1]
  · rw [load_resolves_latest ns v2 _ mt (by simp [lookupStore])]
    apply load_some_eq
    simp [lookupStore, hneL2]
  · apply load_some_eq
    simp [lookupStore, hneL1, hne21]

/-- Witness for C1: a concrete two-persist run with versions `"v1"`,
`"v2"`, distinct content (a `None` submodel then an sklearn submodel), and
a fresh load target of the same class. -/
theorem c1_alias_semantics_witness :
    (ModelRepository.persist "_models" ⟨[], 0⟩ ⟨[], []⟩
        ⟨"m", "C", none, none, some (.single .none_), none⟩ "v1").1 = .ok "v1" ∧
    ModelRepository.load "_models"
        (ModelRepository.persist "_models" ⟨[], 0⟩ ⟨[], []⟩
          ⟨"m", "C", none, none, some (.single .none_), none⟩ "v1").2.2.1
        ⟨"m", "C", none, none, none, none⟩ none
      = Except.map (fun x => {x with version := some "v1"})
          (ModelSerDe.deserialize ⟨"m", "C", none, none, none, none⟩
            [(ModelSerDe.METAINFO_FILE,
              Blob.meta ⟨none, none, some (.list [⟨"custom", "model"⟩])⟩)]) ∧
    (ModelRepository.persist "_models" ⟨[], 0⟩
        (ModelRepository.persist "_models" ⟨[], 0⟩ ⟨[], []⟩
          ⟨"m", "C", none, none, some (.single .none_), none⟩ "v1").2.2.1
        ⟨"m", "C", none, none, some (.single (.sklearnModel 7)), none⟩ "v2").1
      = .ok "v2" ∧
    ModelRepository.load "_models"
        (ModelRepository.persist "_models" ⟨[], 0⟩
          (ModelRepository.persist "_models" ⟨[], 0⟩ ⟨[], []⟩
            ⟨"m", "C", none, none, some (.single .none_), none⟩ "v1").2.2.1
          ⟨"m", "C", none, none, some (.single (.sklearnModel 7)), none⟩ "v2").2.2.1
        ⟨"m", "C", none, none, none, none⟩ none
      = Except.map (fun x => {x with version := some "v2"})
          (ModelSerDe.deserialize ⟨"m", "C", none, none, none, none⟩
            [(ModelSerDe.METAINFO_FILE,
              Blob.meta ⟨none, none, some (.list [⟨"sklearn", "model.joblib"⟩])⟩),
             ("model.joblib", Blob.joblibM (.sklearnModel 7))]) ∧
    ModelRepository.load "_models"
        (ModelRepository.persist "_models" ⟨[], 0⟩
          (ModelRepository.persist "_models" ⟨[], 0⟩ ⟨[], []⟩
            ⟨"m", "C", none, none, some (.single .none_), none⟩ "v1").2.2.1
          ⟨"m", "C", none, none, some (.single (.sklearnModel 7)), none⟩ "v2").2.2.1
        ⟨"m", "C", none, none, none, none⟩ (some "v1")
      = Except.map (fun x => {x with version := some "v1"})
          (ModelSerDe.deserialize ⟨"m", "C", none, none, none, none⟩
            [(ModelSerDe.METAINFO_FILE,
              Blob.meta ⟨none, none, some (.list [⟨"custom", "model"⟩])⟩)]) :=
  c1_alias_semantics "_models" "v1" "v2" ⟨[], 0⟩ ⟨[], []⟩
    ⟨"m", "C", none, none, some (.single .none_), none⟩
    ⟨"m", "C", none, none, some (.single (.sklearnModel 7)), none⟩
    ⟨"m", "C", none, none, none, none⟩
    [(ModelSerDe.METAINFO_FILE,
      Blob.meta ⟨none, none, some (.list [⟨"custom", "model"⟩])⟩)]
    [(ModelSerDe.METAINFO_FILE,
      Blob.meta ⟨none, none, some (.list [⟨"sklearn", "model.joblib"⟩])⟩),
     ("model.joblib", Blob.joblibM (.sklearnModel 7))]
    (by decide) (by decide) (by decide) rfl rfl rfl rfl rfl rfl rfl
